import Mathlib

/-!
Verification of the KumoTrail bare-metal kernel core (ESP32-C3).

This file gives a shallow embedding of the kernel's register-manipulating
operations and proves the stated properties about them.  Hardware registers
are 32-bit and are modelled as natural numbers below `2 ^ 32`; each C
function that mutates registers becomes a Lean function on an explicit
state record.  Where the claims concern ordering of actions inside a
handler, the handler additionally emits a trace of abstract actions.
-/

/-! ## System control module (src/kernel/systemctl.c) -/

/-- The closed peripheral enumeration from sysctl.h / systemctl.h. -/
inductive peripheral_t where
  | PERIPH_UART0
  | PERIPH_UART1
  | PERIPH_TIMG0
  | PERIPH_TIMG1
deriving DecidableEq, Repr

/-- Bit index of a peripheral's clock-enable bit in SYSTEM_PERIP_CLK_EN0_REG
(the source defines the masks 1<<2, 1<<5, 1<<13, 1<<15). -/
def clockBitIndex : peripheral_t → Nat
  | .PERIPH_UART0 => 2
  | .PERIPH_UART1 => 5
  | .PERIPH_TIMG0 => 13
  | .PERIPH_TIMG1 => 15

/-- Bit index of a peripheral's reset bit in SYSTEM_PERIP_RST_EN0_REG.
The source uses the same bit positions as for the clock-enable masks. -/
def resetBitIndex : peripheral_t → Nat
  | .PERIPH_UART0 => 2
  | .PERIPH_UART1 => 5
  | .PERIPH_TIMG0 => 13
  | .PERIPH_TIMG1 => 15

/-- The two system-control registers touched by systemctl.c. -/
structure SysState where
  clkEn0 : Nat
  rstEn0 : Nat
deriving DecidableEq, Repr

/-- All-ones 32-bit mask, used to model the C `~` operator on `uint32_t`. -/
def mask32 : Nat := 2 ^ 32 - 1

/-- Embedding of `sysctl_enable_clock`: computes the per-peripheral
clock-enable mask via the switch, then ORs it into
SYSTEM_PERIP_CLK_EN0_REG when non-zero. -/
def sysctl_enable_clock (p : peripheral_t) (st : SysState) : SysState :=
  let enable_bit := 2 ^ clockBitIndex p
  if enable_bit ≠ 0 then
    { st with clkEn0 := st.clkEn0 ||| enable_bit }
  else st

/-- First half of `sysctl_reset_peripheral`: assert the reset signal
(`SYSTEM_PERIP_RST_EN0_REG |= reset_bit`). -/
def resetAssertStep (p : peripheral_t) (st : SysState) : SysState :=
  { st with rstEn0 := st.rstEn0 ||| 2 ^ resetBitIndex p }

/-- Second half of `sysctl_reset_peripheral`: de-assert the reset signal
(`SYSTEM_PERIP_RST_EN0_REG &= ~reset_bit`). -/
def resetDeassertStep (p : peripheral_t) (st : SysState) : SysState :=
  { st with rstEn0 := st.rstEn0 &&& (mask32 ^^^ 2 ^ resetBitIndex p) }

/-- Embedding of `sysctl_reset_peripheral`: computes the reset mask via the
switch and, when non-zero, asserts then immediately de-asserts it. -/
def sysctl_reset_peripheral (p : peripheral_t) (st : SysState) : SysState :=
  let reset_bit := 2 ^ resetBitIndex p
  if reset_bit ≠ 0 then
    resetDeassertStep p (resetAssertStep p st)
  else st

/-! ## Interrupt matrix (src/kernel/interrupt.c) -/

/-- The hardware interrupt source enumeration from interrupt.h
(one member, with TRM value 32). -/
inductive interrupt_source_t where
  | INTERRUPT_SOURCE_TIMG0_T0
deriving DecidableEq, Repr

/-- The integer value of an interrupt source (used as the register index). -/
def interrupt_source_t.val : interrupt_source_t → Nat
  | .INTERRUPT_SOURCE_TIMG0_T0 => 32

/-- Conversion of a C `int` to the 32-bit pattern stored in a `uint32_t`
register (conversion modulo 2^32). -/
def uint32OfInt (x : Int) : Nat := (x % (2 ^ 32 : Int)).toNat

/-- Interrupt-matrix register state: the per-source mapping registers
(indexed by the source's integer value) and
INTERRUPT_CORE0_CPU_INT_ENABLE_REG. -/
structure IntrState where
  sourceMap : Nat → Nat
  enableReg : Nat

/-- Embedding of `interrupt_route`: writes `cpu_line` into the mapping
register at index `source`, with no validation of `cpu_line`. -/
def interrupt_route (source : interrupt_source_t) (cpu_line : Int)
    (st : IntrState) : IntrState :=
  { st with sourceMap := fun s =>
      if s = source.val then uint32OfInt cpu_line else st.sourceMap s }

/-- Embedding of `interrupt_enable`: if `0 <= cpu_line < 32`, OR the bit
`1 << cpu_line` into the CPU-interrupt-enable register; otherwise no-op. -/
def interrupt_enable (cpu_line : Int) (st : IntrState) : IntrState :=
  if 0 ≤ cpu_line ∧ cpu_line < 32 then
    { st with enableReg := st.enableReg ||| 2 ^ cpu_line.toNat }
  else st

/-- Embedding of `interrupt_disable`: if `0 <= cpu_line < 32`, AND the
register with `~(1 << cpu_line)`; otherwise no-op. -/
def interrupt_disable (cpu_line : Int) (st : IntrState) : IntrState :=
  if 0 ≤ cpu_line ∧ cpu_line < 32 then
    { st with enableReg := st.enableReg &&& (mask32 ^^^ 2 ^ cpu_line.toNat) }
  else st

/-! ## UART driver (src/drivers/uart.c) -/

/-- The observable effect of the `while (*s) uart_putc(*s++);` loop of
`uart_puts`: the bytes written to the UART FIFO register, in order,
reading memory bytes until the first zero byte. -/
def uartPutsLoop : List Nat → List Nat
  | [] => []
  | b :: rest => if b = 0 then [] else b :: uartPutsLoop rest

/-- Embedding of `uart_puts`.  The argument models the `const char *`
pointer: `none` is a null pointer (the function returns immediately with
no register writes); `some mem` gives the bytes in memory starting at the
pointer.  The result is the ordered list of bytes written to the UART
transmit FIFO. -/
def uart_puts : Option (List Nat) → List Nat
  | none => []
  | some mem => uartPutsLoop mem

/-! ## Trap dispatcher (src/kernel/trap.c) -/

/-- The action `trap_handler_c` dispatches to: either a call to the timer
interrupt handler, or a diagnostic string sent through `uart_puts`. -/
inductive TrapAction where
  | callTimerHandler
  | uartDiagnostic (msg : String)
deriving DecidableEq, Repr

/-- Embedding of `trap_handler_c`: reads `mcause` (the argument), tests the
high bit with `cause & 0x80000000`, masks with `0x7FFFFFFF`, and switches
on the interrupt id (case 6 calls the timer handler, default prints a
diagnostic); the exception path prints a diagnostic.  Totality of this
function models the handler returning normally in every case. -/
def trap_handler_c (cause : Nat) : TrapAction :=
  if cause &&& 0x80000000 ≠ 0 then
    let interrupt_id := cause &&& 0x7FFFFFFF
    if interrupt_id = 6 then
      TrapAction.callTimerHandler
    else
      TrapAction.uartDiagnostic "Unknown interrupt occurred\n"
  else
    TrapAction.uartDiagnostic "An exception occurred\n"

/-! ## Timer driver (src/drivers/timer.c, src/drivers/include/timer.h)

`timer.c` under src/ contains the full register map of both timer groups
but its only function body, `timer_init`, is empty.  The functions
`timer_handle_interrupt` and `timer_set_callback` are declared in
timer.h and called from trap.c and main.c, but no implementation of them
is present under src/; they are modelled from the spec below. -/

/-- The 64-bit alarm threshold registers of timer group 0, timer 0
(TIMG_0_T0ALARMLO_REG / TIMG_0_T0ALARMHI_REG). -/
structure TimgState where
  alarmLo : Nat
  alarmHi : Nat
deriving DecidableEq, Repr

/-- Embedding of `timer_init` exactly as written in src/drivers/timer.c:
the function body is empty, so no register is written. -/
def timer_init (st : TimgState) : TimgState :=
  st

/-- The alarm threshold value the spec says `timer_init` programs:
`floor(peripheral_clock_hz / prescaler / target_tick_hz)` at
80 MHz / 1600 / 100 Hz. -/
def specAlarmThreshold : Nat := 80000000 / 1600 / 100

/-- Abstract actions performed by the timer interrupt handler, recorded in
order. -/
inductive TimerAction where
  | feedWatchdog
  | clearIntStatus
  | invokeCallback (cb : Nat)
  | setAlarmEnable
deriving DecidableEq, Repr

/-- Timer driver state visible to the handler: the single module-scope
callback slot (callbacks identified by a numeric id, `none` = empty
reference), the timer's interrupt-status bit and its alarm-enable bit. -/
structure TimerState where
  callback : Option Nat
  intStatus : Bool
  alarmEnable : Bool
deriving DecidableEq, Repr

/-- Modelled from the spec: the implementation of `timer_set_callback`
(declared in src/drivers/include/timer.h) is missing from src/.  Per
spec §4.3 it unconditionally overwrites the single callback slot; an
empty reference disables tick notification. -/
def timer_set_callback (cb : Option Nat) (st : TimerState) : TimerState :=
  { st with callback := cb }

/-- Modelled from the spec: the implementation of `timer_handle_interrupt`
(declared in src/drivers/include/timer.h) is missing from src/.  Per
spec §4.3 it performs, in order: (a) feed the watchdog register,
(b) clear the timer's interrupt-status bit, (c) invoke the registered
callback if present, (d) re-assert the alarm-enable bit.  The result is
the final state paired with the ordered action trace. -/
def timer_handle_interrupt (st : TimerState) : TimerState × List TimerAction :=
  let trace1 := [TimerAction.feedWatchdog]
  let st2 : TimerState := { st with intStatus := false }
  let trace2 := trace1 ++ [TimerAction.clearIntStatus]
  let trace3 := match st2.callback with
    | some cb => trace2 ++ [TimerAction.invokeCallback cb]
    | none => trace2
  let st4 : TimerState := { st2 with alarmEnable := true }
  (st4, trace3 ++ [TimerAction.setAlarmEnable])

/-! ## Helper lemmas -/

/-- ORing a power of two into a register sets that bit. -/
theorem testBit_or_two_pow_self (r k : Nat) : (r ||| 2 ^ k).testBit k = true := by
  simp [Nat.testBit_or, Nat.testBit_two_pow]

/-- ANDing with the 32-bit complement of a power of two clears that bit. -/
theorem testBit_and_not_two_pow (r k : Nat) (hk : k < 32) :
    (r &&& (mask32 ^^^ 2 ^ k)).testBit k = false := by
  have h2 : (mask32 ^^^ 2 ^ k).testBit k = false := by
    simp only [mask32, Nat.testBit_xor, Nat.testBit_two_pow_sub_one, Nat.testBit_two_pow]
    simp [hk]
  simp [Nat.testBit_and, h2]

/-- ORing in a power of two whose bit is already set is the identity. -/
theorem or_two_pow_of_testBit (r k : Nat) (h : r.testBit k = true) :
    r ||| 2 ^ k = r := by
  apply Nat.eq_of_testBit_eq
  intro i
  simp only [Nat.testBit_or, Nat.testBit_two_pow]
  by_cases hik : k = i
  · subst hik
    simp [h]
  · simp [hik]

/-- Testing the high bit of a 32-bit cause word via `cause & 0x80000000`. -/
theorem and_msb_ne_zero_iff (n : Nat) :
    n &&& 0x80000000 ≠ 0 ↔ n.testBit 31 = true := by
  have h : (0x80000000 : Nat) = 2 ^ 31 := by norm_num
  rw [h, Nat.and_two_pow]
  cases hb : n.testBit 31 <;> simp [hb]

/-! ## Claim theorems -/

/-- C7: for every peripheral P of the enumeration, `sysctl_enable_clock P`
sets P's clock-enable bit in the shared register, is idempotent (a second
call changes nothing, and a call on a state whose bit is already set is a
no-op), and leaves the reset register untouched. -/
theorem sysctl_enable_clock_sets_bit_idempotent (p : peripheral_t) (st : SysState) :
    ((sysctl_enable_clock p st).clkEn0).testBit (clockBitIndex p) = true ∧
    sysctl_enable_clock p (sysctl_enable_clock p st) = sysctl_enable_clock p st ∧
    (st.clkEn0.testBit (clockBitIndex p) = true → sysctl_enable_clock p st = st) ∧
    (sysctl_enable_clock p st).rstEn0 = st.rstEn0 := by
  have hbit : (2 : Nat) ^ clockBitIndex p ≠ 0 := pow_ne_zero _ two_ne_zero
  refine ⟨?_, ?_, ?_, ?_⟩
  · simp [sysctl_enable_clock, hbit, testBit_or_two_pow_self]
  · simp [sysctl_enable_clock, hbit, Nat.or_assoc]
  · intro h
    simp [sysctl_enable_clock, hbit, or_two_pow_of_testBit _ _ h]
  · simp [sysctl_enable_clock, hbit]

/-- C7 witness: concrete instance of the hypothesis-bearing conjunct. -/
theorem sysctl_enable_clock_sets_bit_idempotent_witness :
    sysctl_enable_clock peripheral_t.PERIPH_TIMG0 ⟨8192, 0⟩ = ⟨8192, 0⟩ :=
  (sysctl_enable_clock_sets_bit_idempotent peripheral_t.PERIPH_TIMG0 ⟨8192, 0⟩).2.2.1
    (by decide)

/-- C8: for every peripheral P, `sysctl_reset_peripheral P` performs the
assert step followed by the de-assert step on the reset register; the
reset bit is set in the intermediate state and clear after the call
returns, and the clock register is untouched. -/
theorem sysctl_reset_peripheral_clears_reset_bit (p : peripheral_t) (st : SysState) :
    sysctl_reset_peripheral p st = resetDeassertStep p (resetAssertStep p st) ∧
    ((resetAssertStep p st).rstEn0).testBit (resetBitIndex p) = true ∧
    ((sysctl_reset_peripheral p st).rstEn0).testBit (resetBitIndex p) = false ∧
    (sysctl_reset_peripheral p st).clkEn0 = st.clkEn0 := by
  have hbit : (2 : Nat) ^ resetBitIndex p ≠ 0 := pow_ne_zero _ two_ne_zero
  have hval : sysctl_reset_peripheral p st = resetDeassertStep p (resetAssertStep p st) := by
    simp [sysctl_reset_peripheral, hbit]
  have hk : resetBitIndex p < 32 := by cases p <;> decide
  refine ⟨hval, ?_, ?_, ?_⟩
  · simp [resetAssertStep, testBit_or_two_pow_self]
  · rw [hval]
    simp [resetDeassertStep, testBit_and_not_two_pow _ _ hk]
  · rw [hval]
    simp [resetDeassertStep, resetAssertStep]

/-- C5 counterexample: with cpu_line = 0 (inside [0,31]) and a prior
enable-register value 1 (bit 0 already set), enabling and then disabling
line 0 yields register value 0, not the prior value 1. -/
theorem interrupt_enable_disable_not_restoring :
    (0 : Int) ≤ 0 ∧ (0 : Int) < 32 ∧
    (interrupt_disable 0 (interrupt_enable 0 ⟨fun _ => 0, 1⟩)).enableReg ≠
      (IntrState.mk (fun _ => 0) 1).enableReg := by
  refine ⟨le_refl 0, by decide, ?_⟩
  decide

/-- C5 (amended): for every cpu_line in [0,31] and every prior 32-bit
register value in which the cpu_line bit is clear, `interrupt_enable`
followed by `interrupt_disable` on that line returns the enable-bitmask
register to exactly its prior value. -/
theorem interrupt_enable_then_disable_restores (cpu_line : Int) (st : IntrState)
    (h0 : 0 ≤ cpu_line) (h32 : cpu_line < 32)
    (hreg : st.enableReg < 2 ^ 32)
    (hbit : st.enableReg.testBit cpu_line.toNat = false) :
    (interrupt_disable cpu_line (interrupt_enable cpu_line st)).enableReg =
      st.enableReg := by
  have hn : cpu_line.toNat < 32 := by omega
  simp only [interrupt_enable, interrupt_disable, if_pos (And.intro h0 h32)]
  apply Nat.eq_of_testBit_eq
  intro i
  simp only [Nat.testBit_and, Nat.testBit_or, Nat.testBit_xor, mask32,
    Nat.testBit_two_pow_sub_one, Nat.testBit_two_pow]
  by_cases hik : cpu_line.toNat = i
  · subst hik
    simp [hbit, hn]
  · by_cases hi32 : i < 32
    · simp [hik, hi32]
    · have hhi : st.enableReg.testBit i = false :=
        Nat.testBit_lt_two_pow
          (lt_of_lt_of_le hreg (Nat.pow_le_pow_right (by norm_num) (by omega)))
      simp [hik, hi32, hhi]

/-- C5 witness: line 3 on prior register value 5 (bit 3 clear) is restored. -/
theorem interrupt_enable_then_disable_restores_witness :
    (interrupt_disable 3 (interrupt_enable 3 ⟨fun _ => 0, 5⟩)).enableReg = 5 :=
  interrupt_enable_then_disable_restores 3 ⟨fun _ => 0, 5⟩ (by decide) (by decide)
    (by norm_num) (by decide)

/-- C6: for every cpu_line outside [0,31], `interrupt_enable` and
`interrupt_disable` are both no-ops: the whole interrupt-matrix state,
and in particular the enable register, is left unchanged. -/
theorem interrupt_enable_disable_out_of_range_noop (cpu_line : Int) (st : IntrState)
    (h : cpu_line < 0 ∨ 32 ≤ cpu_line) :
    interrupt_enable cpu_line st = st ∧ interrupt_disable cpu_line st = st := by
  have hneg : ¬(0 ≤ cpu_line ∧ cpu_line < 32) := by omega
  exact ⟨by simp [interrupt_enable, hneg], by simp [interrupt_disable, hneg]⟩

/-- C6 witness: cpu_line = 32 is silently ignored by both operations. -/
theorem interrupt_enable_disable_out_of_range_noop_witness :
    interrupt_enable 32 ⟨fun _ => 0, 7⟩ = ⟨fun _ => 0, 7⟩ ∧
    interrupt_disable 32 ⟨fun _ => 0, 7⟩ = ⟨fun _ => 0, 7⟩ :=
  interrupt_enable_disable_out_of_range_noop 32 ⟨fun _ => 0, 7⟩ (Or.inr (by decide))

/-- C10: for every source and every integer cpu_line, `interrupt_route`
unconditionally stores the 32-bit value of cpu_line in the mapping
register at the source's index, touching nothing else; no range check is
applied, and for any cpu_line representable in 32 bits — in particular
values outside [0,31] — the stored value is cpu_line itself. -/
theorem interrupt_route_unvalidated_write (source : interrupt_source_t)
    (cpu_line : Int) (st : IntrState) :
    (interrupt_route source cpu_line st).sourceMap source.val = uint32OfInt cpu_line ∧
    (∀ s, s ≠ source.val → (interrupt_route source cpu_line st).sourceMap s = st.sourceMap s) ∧
    (interrupt_route source cpu_line st).enableReg = st.enableReg ∧
    (0 ≤ cpu_line → cpu_line < 2 ^ 32 → uint32OfInt cpu_line = cpu_line.toNat) := by
  refine ⟨by simp [interrupt_route], ?_, rfl, ?_⟩
  · intro s hs
    simp [interrupt_route, hs]
  · intro hlo hhi
    have h32 : (2 ^ 32 : Int) = 4294967296 := by norm_num
    unfold uint32OfInt
    rw [h32] at hhi ⊢
    omega

/-- C10 witness: routing with cpu_line = 100, far outside [0,31], stores
100 verbatim in the mapping register of the timer source (index 32). -/
theorem interrupt_route_unvalidated_write_witness :
    (interrupt_route interrupt_source_t.INTERRUPT_SOURCE_TIMG0_T0 100
        ⟨fun _ => 0, 0⟩).sourceMap 32 = 100 := by
  have h := interrupt_route_unvalidated_write
    interrupt_source_t.INTERRUPT_SOURCE_TIMG0_T0 100 ⟨fun _ => 0, 0⟩
  have hv := h.2.2.2 (by decide) (by norm_num)
  exact h.1.trans (hv.trans (by decide))

/-- C4: `trap_handler_c` is a three-way classify-and-dispatch on the cause
value: high bit set with low 31 bits equal to 6 calls the timer handler;
high bit set with any other low value emits the unknown-interrupt
diagnostic through the byte sink; high bit clear emits the exception
diagnostic — and, being a total function, it returns normally in every
case. -/
theorem trap_handler_c_classifies (cause : Nat) :
    (cause.testBit 31 = true → cause &&& 0x7FFFFFFF = 6 →
      trap_handler_c cause = TrapAction.callTimerHandler) ∧
    (cause.testBit 31 = true → cause &&& 0x7FFFFFFF ≠ 6 →
      trap_handler_c cause = TrapAction.uartDiagnostic "Unknown interrupt occurred\n") ∧
    (cause.testBit 31 = false →
      trap_handler_c cause = TrapAction.uartDiagnostic "An exception occurred\n") := by
  refine ⟨?_, ?_, ?_⟩
  · intro hb h6
    have hmsb : cause &&& 0x80000000 ≠ 0 := (and_msb_ne_zero_iff cause).mpr hb
    simp [trap_handler_c, hmsb, h6]
  · intro hb h6
    have hmsb : cause &&& 0x80000000 ≠ 0 := (and_msb_ne_zero_iff cause).mpr hb
    simp [trap_handler_c, hmsb, h6]
  · intro hb
    have hmsb : ¬cause &&& 0x80000000 ≠ 0 := by
      intro hne
      rw [(and_msb_ne_zero_iff cause).mp hne] at hb
      exact absurd hb (by simp)
    simp [trap_handler_c, hmsb]

/-- C4 witness: the three dispatch cases at concrete cause values
0x80000006, 0x80000001 and 6. -/
theorem trap_handler_c_classifies_witness :
    trap_handler_c 0x80000006 = TrapAction.callTimerHandler ∧
    trap_handler_c 0x80000001 = TrapAction.uartDiagnostic "Unknown interrupt occurred\n" ∧
    trap_handler_c 6 = TrapAction.uartDiagnostic "An exception occurred\n" :=
  ⟨(trap_handler_c_classifies 0x80000006).1 (by decide) (by decide),
   (trap_handler_c_classifies 0x80000001).2.1 (by decide) (by decide),
   (trap_handler_c_classifies 6).2.2 (by decide)⟩

/-- The transmit loop of `uart_puts` emits exactly the bytes before the
first zero byte. -/
theorem uartPutsLoop_append (str rest : List Nat) (h : ∀ b ∈ str, b ≠ 0) :
    uartPutsLoop (str ++ 0 :: rest) = str := by
  induction str with
  | nil => simp [uartPutsLoop]
  | cons b tl ih =>
    have hb : b ≠ 0 := h b (List.mem_cons_self b tl)
    have htl : ∀ x ∈ tl, x ≠ 0 := fun x hx => h x (List.mem_cons_of_mem b hx)
    simp [uartPutsLoop, hb, ih htl]

/-- C9: `uart_puts` on a null pointer performs no register writes, and on a
non-null pointer to a null-terminated string it transmits exactly the
characters of the string, in order, excluding the terminator. -/
theorem uart_puts_null_noop_and_transmits :
    uart_puts none = [] ∧
    ∀ (str rest : List Nat), (∀ b ∈ str, b ≠ 0) →
      uart_puts (some (str ++ 0 :: rest)) = str := by
  refine ⟨rfl, ?_⟩
  intro str rest h
  simpa [uart_puts] using uartPutsLoop_append str rest h

/-- C9 witness: the bytes of "Hi" followed by a terminator and trailing
memory garbage are transmitted as exactly [72, 105]. -/
theorem uart_puts_null_noop_and_transmits_witness :
    uart_puts none = [] ∧
    uart_puts (some ([72, 105] ++ 0 :: [99])) = [72, 105] :=
  ⟨uart_puts_null_noop_and_transmits.1,
   uart_puts_null_noop_and_transmits.2 [72, 105] [99] (by decide)⟩

/-- C2 (code evaluation): `timer_init` as committed in src/drivers/timer.c
has an empty body, writes no register at all, and in particular never
programs the alarm threshold: starting from cleared alarm registers, the
low word after `timer_init` is not the spec's threshold value, even
though that value is indeed 500. -/
theorem timer_init_programs_no_threshold :
    (∀ st : TimgState, timer_init st = st) ∧
    (timer_init ⟨0, 0⟩).alarmLo ≠ specAlarmThreshold ∧
    specAlarmThreshold = 500 :=
  ⟨fun _ => rfl, by decide, by decide⟩

/-- C1: a single call to `timer_handle_interrupt` leaves the
interrupt-status bit clear and the alarm-enable bit set, and its action
trace is, in this exact order: feed the watchdog (first action), clear
the interrupt-status bit, invoke the registered callback exactly once if
one is registered (no invocation otherwise), and re-assert the
alarm-enable bit. -/
theorem timer_handle_interrupt_order_and_post (st : TimerState) :
    (timer_handle_interrupt st).1.intStatus = false ∧
    (timer_handle_interrupt st).1.alarmEnable = true ∧
    (timer_handle_interrupt st).2.head? = some TimerAction.feedWatchdog ∧
    (∀ cb, st.callback = some cb →
      (timer_handle_interrupt st).2 =
        [TimerAction.feedWatchdog, TimerAction.clearIntStatus,
         TimerAction.invokeCallback cb, TimerAction.setAlarmEnable] ∧
      ((timer_handle_interrupt st).2.count (TimerAction.invokeCallback cb)) = 1) ∧
    (st.callback = none →
      (timer_handle_interrupt st).2 =
        [TimerAction.feedWatchdog, TimerAction.clearIntStatus,
         TimerAction.setAlarmEnable]) := by
  refine ⟨rfl, rfl, ?_, ?_, ?_⟩
  · cases h : st.callback <;> simp [timer_handle_interrupt, h]
  · intro cb hcb
    refine ⟨by simp [timer_handle_interrupt, hcb], ?_⟩
    simp [timer_handle_interrupt, hcb, List.count_cons]
  · intro hnone
    simp [timer_handle_interrupt, hnone]

/-- C1 witness: handling an interrupt with callback 7 registered, status
bit pending and alarm disarmed. -/
theorem timer_handle_interrupt_order_and_post_witness :
    (timer_handle_interrupt ⟨some 7, true, false⟩).1.intStatus = false ∧
    (timer_handle_interrupt ⟨some 7, true, false⟩).2 =
      [TimerAction.feedWatchdog, TimerAction.clearIntStatus,
       TimerAction.invokeCallback 7, TimerAction.setAlarmEnable] :=
  ⟨(timer_handle_interrupt_order_and_post ⟨some 7, true, false⟩).1,
   ((timer_handle_interrupt_order_and_post ⟨some 7, true, false⟩).2.2.2.1 7 rfl).1⟩

/-- C3: `timer_set_callback` is last-write-wins: after registering callback
a and then callback b, a single `timer_handle_interrupt` invokes b
exactly once and (when a and b differ) never invokes a; registering the
empty reference yields a trace with no invocation at all. -/
theorem timer_set_callback_last_write_wins (a b : Nat) (st st' : TimerState) :
    ((timer_handle_interrupt
        (timer_set_callback (some b) (timer_set_callback (some a) st))).2.count
      (TimerAction.invokeCallback b)) = 1 ∧
    (a ≠ b →
      ((timer_handle_interrupt
          (timer_set_callback (some b) (timer_set_callback (some a) st))).2.count
        (TimerAction.invokeCallback a)) = 0) ∧
    (timer_handle_interrupt (timer_set_callback none st')).2 =
      [TimerAction.feedWatchdog, TimerAction.clearIntStatus,
       TimerAction.setAlarmEnable] := by
  refine ⟨?_, ?_, ?_⟩
  · simp [timer_handle_interrupt, timer_set_callback, List.count_cons]
  · intro hab
    simp [timer_handle_interrupt, timer_set_callback, List.count_cons, hab]
  · simp [timer_handle_interrupt, timer_set_callback]

/-- C3 witness: register callback 1 then callback 2; the handler invokes 2
once and 1 not at all, and a cleared slot yields no invocation. -/
theorem timer_set_callback_last_write_wins_witness :
    ((timer_handle_interrupt
        (timer_set_callback (some 2) (timer_set_callback (some 1)
          ⟨none, true, false⟩))).2.count (TimerAction.invokeCallback 2)) = 1 ∧
    ((timer_handle_interrupt
        (timer_set_callback (some 2) (timer_set_callback (some 1)
          ⟨none, true, false⟩))).2.count (TimerAction.invokeCallback 1)) = 0 :=
  ⟨(timer_set_callback_last_write_wins 1 2 ⟨none, true, false⟩ ⟨none, true, false⟩).1,
   (timer_set_callback_last_write_wins 1 2 ⟨none, true, false⟩
      ⟨none, true, false⟩).2.1 (by decide)⟩
